import Mathlib

/-!
Verification of the fastest-server session orchestrator.

Shallow embedding of `src/lib/AndroidCommandLineTools.js` (the
`AndroidCommandLineTools` device-control facade, the `Server` session
orchestrator, and the transparent proxy).  External effects — command
execution via childProcess.exec, the emulator spawn, and HTTP requests
to the local automation server — are parameterized: each adb invocation
is given its raw outcome by an environment `AdbEnv` indexed by the
invocation counter, and each poll probe by a stream indexed by the
attempt number.  Every function below is translated line by line from
the source; JavaScript strings become Lean `String`, JS `undefined` /
falsy-string handling becomes `Option String` with `truthy` / `jsOr`.
-/

/-- Observable external actions emitted by the facade and orchestrator:
an adb invocation (carrying the adb sub-command string exactly as the
source builds it), an emulator process spawn (carrying the avd image
identifier), and a GET /ping health probe to the local automation
server. -/
inductive Event where
  | adb (cmd : String)
  | spawnEmulator (avd : Option String)
  | ping
deriving Repr, DecidableEq

/-- Errors: `err` models a thrown JavaScript `Error` (with its message)
or an exec failure; `typeError` models a TypeError raised by
dereferencing a property of `null`/`undefined`. -/
inductive JsError where
  | err (msg : String)
  | typeError (msg : String)
deriving Repr, DecidableEq

/-- Raw outcome of one `childProcess.exec` call: either the callback
received an `err`, or it received captured stdout and stderr. -/
inductive ExecOutcome where
  | execErr (msg : String)
  | output (stdout stderr : String)
deriving Repr, DecidableEq

/-- The resolved value of the `exec` promise: captured stdout/stderr. -/
structure ExecSuccess where
  stdout : String
  stderr : String
deriving Repr, DecidableEq

/-- JS whitespace class (the ASCII part relevant to `trim` and `\s`). -/
def isWs (c : Char) : Bool :=
  c = ' ' || c = '\t' || c = '\n' || c = '\r' || c = '\x0b' || c = '\x0c'

/-- `String.prototype.trim`. -/
def jsTrim (s : String) : String :=
  ⟨((s.data.dropWhile isWs).reverse.dropWhile isWs).reverse⟩

/-- ASCII lowering of one char, as `toLowerCase` acts on ASCII. -/
def jsToLowerChar (c : Char) : Char :=
  if 'A' ≤ c ∧ c ≤ 'Z' then Char.ofNat (c.toNat + 32) else c

/-- ASCII raising of one char, as `toUpperCase` acts on ASCII. -/
def jsToUpperChar (c : Char) : Char :=
  if 'a' ≤ c ∧ c ≤ 'z' then Char.ofNat (c.toNat - 32) else c

/-- `String.prototype.toLowerCase` restricted to ASCII letters. -/
def jsToLower (s : String) : String := ⟨s.data.map jsToLowerChar⟩

/-- `String.prototype.toUpperCase` restricted to ASCII letters. -/
def jsToUpper (s : String) : String := ⟨s.data.map jsToUpperChar⟩

/-- List version of the startsWith test used by `indexOf(x) === 0`. -/
def leadsWith : List Char → List Char → Bool
  | [], _ => true
  | _, [] => false
  | a :: as, b :: bs => a = b && leadsWith as bs

/-- `s.toLowerCase().indexOf('error') === 0`: the output-sniffing error
convention of the wrapped tool. -/
def startsWithError (s : String) : Bool :=
  leadsWith "error".data (jsToLower s).data

/-- JS `<` on strings: lexicographic comparison of code units. -/
def jsLtChars : List Char → List Char → Bool
  | [], [] => false
  | [], _ :: _ => true
  | _ :: _, [] => false
  | a :: as, b :: bs =>
    if a.toNat < b.toNat then true
    else if b.toNat < a.toNat then false
    else jsLtChars as bs

/-- JS `>=` on strings (`a >= b` is `!(a < b)`); this is the raw
lexicographic comparison `caps.platformVersion >= '6.0'` uses. -/
def jsStrGe (a b : String) : Bool := !(jsLtChars a.data b.data)

/-- JS truthiness of a possibly-absent string (`undefined` and the
empty string are falsy). -/
def truthy : Option String → Bool
  | none => false
  | some s => s != ""

/-- JS `a || b` on possibly-absent strings. -/
def jsOr (a b : Option String) : Option String := if truthy a then a else b

/-- Split on `'\n'`, keeping the pieces (the raw split of the regex
`/\r?\n/` needs a trailing `'\r'` stripped from every piece but the
last, done below). -/
def splitNl : List Char → List (List Char)
  | [] => [[]]
  | c :: rest =>
    if c = '\n' then [] :: splitNl rest
    else
      match splitNl rest with
      | [] => [[c]]
      | l :: ls => (c :: l) :: ls

/-- Apply `f` to every element except the last. -/
def mapExceptLast (f : α → α) : List α → List α
  | [] => []
  | [a] => [a]
  | a :: b :: rest => f a :: mapExceptLast f (b :: rest)

/-- Drop one trailing carriage return. -/
def stripCr (l : List Char) : List Char :=
  match l.reverse with
  | '\r' :: rest => rest.reverse
  | _ => l

/-- `s.split(/\r?\n/)`. -/
def jsSplitLines (s : String) : List String :=
  (mapExceptLast stripCr (splitNl s.data)).map (fun l => ⟨l⟩)

/-- `Array.prototype.findIndex` (−1 when no element matches). -/
def jsFindIndex (t : String) (xs : List String) : Int :=
  match xs.findIdx? (fun r => r = t) with
  | some i => (i : Int)
  | none => -1

/-- Clamp one `slice` index against a length, JS semantics (negative
counts from the end). -/
def jsSliceBound (len : Nat) (i : Int) : Nat :=
  if i < 0 then (max ((len : Int) + i) 0).toNat else min i.toNat len

/-- `Array.prototype.slice(start, end)`. -/
def jsSlice (xs : List α) (s e : Int) : List α :=
  (xs.take (jsSliceBound xs.length e)).drop (jsSliceBound xs.length s)

/-- The fixed process-wide dangerous-permission constant
`DANGEROUS_PERMISSIONS` (source lines 4–29). -/
def DANGEROUS_PERMISSIONS : List String := [
  "android.permission.READ_CALENDAR",
  "android.permission.WRITE_CALENDAR",
  "android.permission.CAMERA",
  "android.permission.READ_CONTACTS",
  "android.permission.WRITE_CONTACTS",
  "android.permission.GET_ACCOUNTS",
  "android.permission.ACCESS_FINE_LOCATION",
  "android.permission.ACCESS_COARSE_LOCATION",
  "android.permission.RECORD_AUDIO",
  "android.permission.READ_PHONE_STATE",
  "android.permission.CALL_PHONE",
  "android.permission.READ_CALL_LOG",
  "android.permission.WRITE_CALL_LOG",
  "android.permission.ADD_VOICEMAIL",
  "android.permission.USE_SIP",
  "android.permission.PROCESS_OUTGOING_CALLS",
  "android.permission.BODY_SENSORS",
  "android.permission.SEND_SMS",
  "android.permission.RECEIVE_SMS",
  "android.permission.READ_SMS",
  "android.permission.RECEIVE_WAP_PUSH",
  "android.permission.RECEIVE_MMS",
  "android.permission.READ_EXTERNAL_STORAGE",
  "android.permission.WRITE_EXTERNAL_STORAGE"]

/-- The `exec` wrapper (source lines 230–246): a command execution
fails when the underlying execution errored, or when captured stdout or
stderr begins, case-insensitively, with the token `error`; otherwise it
resolves with the captured stdout and stderr. -/
def exec : ExecOutcome → Except JsError ExecSuccess
  | .execErr m => .error (.err m)
  | .output out err =>
    if startsWithError out then .error (.err out)
    else if startsWithError err then .error (.err err)
    else .ok ⟨out, err⟩

/-- Decidable equality of results, for evaluating the model on
concrete inputs. -/
instance {ε α : Type} [DecidableEq ε] [DecidableEq α] : DecidableEq (Except ε α) := fun x y =>
  match x, y with
  | .ok a, .ok b =>
    if h : a = b then isTrue (h ▸ rfl) else isFalse (fun hc => h (Except.ok.inj hc))
  | .error a, .error b =>
    if h : a = b then isTrue (h ▸ rfl) else isFalse (fun hc => h (Except.error.inj hc))
  | .ok _, .error _ => isFalse (fun hc => Except.noConfusion hc)
  | .error _, .ok _ => isFalse (fun hc => Except.noConfusion hc)

/-- Constructor configuration of `AndroidCommandLineTools`. -/
structure Tools where
  sdkPath : String
  deviceName : Option String
  avdName : Option String
deriving Repr, DecidableEq

/-- Environment giving the raw outcome of the k-th adb command
execution of a run (the test suite models the same thing as a queue of
canned results consumed in order). -/
abbrev AdbEnv := Nat → ExecOutcome

/-- `execAdb` (source lines 215–223): resolves the device name from the
per-call value falling back to the configured default; when neither is
set (JS-falsy) it throws `missing deviceName` synchronously, before any
command is executed — hence the empty event trace.  Otherwise it
executes one adb command; the trace records the adb sub-command.
Returns (next invocation counter, events, result). -/
def execAdb (t : Tools) (env : AdbEnv) (k : Nat) (dn : Option String) (cmd : String) :
    Nat × List Event × Except JsError ExecSuccess :=
  if truthy (jsOr dn t.deviceName) then
    (k + 1, [Event.adb cmd], exec (env k))
  else
    (k, [], .error (.err "missing deviceName"))

/-- Parsing of `adb devices` output (source lines 102–110): drop the
header line, take the first whitespace-delimited token of each
remaining trimmed line, keep the non-blank results. -/
def parseDevices (stdout : String) : List String :=
  (((jsSplitLines stdout).drop 1).map
    (fun line => (⟨(jsTrim line).data.takeWhile (fun c => !isWs c)⟩ : String))).filter
    (fun device => device ≠ "")

/-- Parsing of `shell pm list packages` output (source line 142): one
entry per non-blank trimmed line. -/
def parsePackages (stdout : String) : List String :=
  ((jsSplitLines stdout).map jsTrim).filter (fun it => it ≠ "")

/-- AppMetadata: the permissions the installed app requests. -/
structure AppInfo where
  requestedPermissions : List String
deriving Repr, DecidableEq

/-- Parsing of `shell dumpsys package` output (source lines 154–163):
the trimmed rows strictly between the row `requested permissions:` and
the row `install permissions:`, with JS findIndex/slice semantics. -/
def parsePackageInfo (stdout : String) : AppInfo :=
  let rows := (jsSplitLines stdout).map jsTrim
  let startIdx := jsFindIndex "requested permissions:" rows + 1
  let endIndex := jsFindIndex "install permissions:" rows
  ⟨jsSlice rows startIdx endIndex⟩

/-- `listRunningDevices` (source lines 97–111). -/
def listRunningDevices (t : Tools) (env : AdbEnv) (k : Nat) :
    Nat × List Event × Except JsError (List String) :=
  let (k1, tr, r) := execAdb t env k none "devices"
  (k1, tr, r.map (fun res => parseDevices res.stdout))

/-- `listPackages` (source lines 133–144). -/
def listPackages (t : Tools) (env : AdbEnv) (k : Nat) (dn : Option String) :
    Nat × List Event × Except JsError (List String) :=
  let (k1, tr, r) := execAdb t env k dn "shell pm list packages"
  (k1, tr, r.map (fun res => parsePackages res.stdout))

/-- `packageInfo` (source lines 146–164). -/
def packageInfo (t : Tools) (env : AdbEnv) (k : Nat) (dn : Option String) (packageName : String) :
    Nat × List Event × Except JsError AppInfo :=
  let (k1, tr, r) := execAdb t env k dn ("shell dumpsys package " ++ packageName)
  (k1, tr, r.map (fun res => parsePackageInfo res.stdout))

/-- `installApp` (source lines 113–131): attempt `uninstall`, swallow
its failure (`.catch` ignores the app-not-installed error), then
`install`; the overall result is the install invocation's result.  When
the device name is missing both execAdb calls contribute no events and
the missing-deviceName error is the result, matching the synchronous
throw escaping the catch in the source. -/
def installApp (t : Tools) (env : AdbEnv) (k : Nat) (dn : Option String)
    (packageName apkPath : String) :
    Nat × List Event × Except JsError ExecSuccess :=
  let d := jsOr dn t.deviceName
  let (k1, tr1, _r1) := execAdb t env k d ("uninstall " ++ packageName)
  let (k2, tr2, r2) := execAdb t env k1 d ("install " ++ apkPath)
  (k2, tr1 ++ tr2, r2)

/-- `clearApp` (source lines 166–173). -/
def clearApp (t : Tools) (env : AdbEnv) (k : Nat) (dn : Option String) (packageName : String) :
    Nat × List Event × Except JsError ExecSuccess :=
  execAdb t env k dn ("shell pm clear " ++ packageName)

/-- `startApp` (source lines 175–182). -/
def startApp (t : Tools) (env : AdbEnv) (k : Nat) (dn : Option String) (packageName : String) :
    Nat × List Event × Except JsError ExecSuccess :=
  execAdb t env k dn ("shell monkey -p " ++ packageName ++ " -c android.intent.category.LAUNCHER 1")

/-- `tcpPortForward` (source lines 197–204). -/
def tcpPortForward (t : Tools) (env : AdbEnv) (k : Nat) (dn : Option String)
    (hostPort devicePort : Nat) :
    Nat × List Event × Except JsError ExecSuccess :=
  execAdb t env k dn ("forward tcp:" ++ toString hostPort ++ " tcp:" ++ toString devicePort)

/-- The fan-out of `dangerous.map(permission => execAdb(...))` inside
`Promise.all` (source lines 189–194): every grant invocation is issued
(they all start when the array is mapped), and the overall error is the
first failing grant in list order. -/
def grantLoop (t : Tools) (env : AdbEnv) (d : Option String) (packageName : String) :
    Nat → List String → Nat × List Event × Option JsError
  | k, [] => (k, [], none)
  | k, p :: rest =>
    let (k1, tr1, r1) := execAdb t env k d ("shell pm grant " ++ packageName ++ " " ++ p)
    let (k2, tr2, e2) := grantLoop t env d packageName k1 rest
    (k2, tr1 ++ tr2,
      match r1 with
      | .error e => some e
      | .ok _ => e2)

/-- `grantPermissions` (source lines 184–195): filter the permissions
to `DANGEROUS_PERMISSIONS`, then `Promise.all` one grant per survivor.
When the device name is missing, the first `execAdb` inside the map
throws synchronously — unless the filtered list is empty, in which case
`Promise.all([])` resolves and no invocation is issued at all. -/
def grantPermissions (t : Tools) (env : AdbEnv) (k : Nat) (dn : Option String)
    (packageName : String) (permissions : List String) :
    Nat × List Event × Except JsError Unit :=
  let dangerous := permissions.filter (fun p => DANGEROUS_PERMISSIONS.contains p)
  if truthy (jsOr dn t.deviceName) then
    let (k2, tr2, e2) := grantLoop t env (jsOr dn t.deviceName) packageName k dangerous
    (k2, tr2,
      match e2 with
      | some e => .error e
      | none => .ok ())
  else if dangerous.isEmpty then (k, [], .ok ())
  else (k, [], .error (.err "missing deviceName"))

/-- One attempt body of `waitUntilRunning` (source lines 75–83): call
`listPackages`; an exec failure or an empty package list counts as a
failed attempt (the source throws a bare `new Error()` on an empty
list, whose message is the empty string). -/
def bootAttempt (o : ExecOutcome) : Except JsError Unit :=
  match exec o with
  | .error e => .error e
  | .ok res => if (parsePackages res.stdout).length = 0 then .error (.err "") else .ok ()

/-- The shared bounded-retry shape of both polls, written structurally
on the remaining-retry budget: `retryAux probe ev attempt fuel` mirrors
the source recursion at `attempt` with `fuel = maxAttempts - attempt`,
so the source guard `attempt < maxAttempts` (retry at `attempt + 1`)
is exactly the `fuel + 1` case (retry with `fuel`).  Returns (number of
probe invocations issued, events, final result). -/
def retryAux (probe : Nat → Except JsError Unit) (ev : Event) :
    Nat → Nat → Nat × List Event × Except JsError Unit
  | attempt, 0 =>
    match probe attempt with
    | .ok _ => (1, [ev], .ok ())
    | .error e => (1, [ev], .error e)
  | attempt, fuel + 1 =>
    match probe attempt with
    | .ok _ => (1, [ev], .ok ())
    | .error _e =>
      let (n, tr, r) := retryAux probe ev (attempt + 1) fuel
      (n + 1, ev :: tr, r)

/-- `waitUntilRunning` inside `startDevice` (source lines 75–94): poll
`listPackages` starting at attempt 0, retrying while `attempt < 60`.
Each attempt issues one real `shell pm list packages` adb invocation
(the `bootProbe` stream gives its raw outcome per attempt); a missing
device name aborts immediately, before any invocation, since the
synchronous throw inside `listPackages` escapes the retry catch. -/
def waitUntilRunning (t : Tools) (bootProbe : Nat → ExecOutcome) :
    Nat × List Event × Except JsError Unit :=
  if truthy t.deviceName then
    retryAux (fun a => bootAttempt (bootProbe a)) (Event.adb "shell pm list packages") 0 60
  else (0, [], .error (.err "missing deviceName"))

/-- `startDevice` (source lines 67–95): spawn the emulator process
(fire and forget) with the avd image identifier, then wait until the
device answers package queries. -/
def startDevice (t : Tools) (bootProbe : Nat → ExecOutcome) (avdArg : Option String) :
    Nat × List Event × Except JsError Unit :=
  let avd := jsOr avdArg t.avdName
  let (n, tr, r) := waitUntilRunning t bootProbe
  (n, Event.spawnEmulator avd :: tr, r)

/-- `Server` construction-time configuration (source lines 262–267). -/
structure ServerConfig where
  port : Nat
  appServerPort : Nat
  localAppServerPort : Nat
  rootPath : String
  sdkPath : String
deriving Repr, DecidableEq

/-- Client-supplied desired capabilities, with the fields the
orchestrator reads. -/
structure Caps where
  deviceName : Option String
  avdName : Option String
  packageName : String
  app : String
  platformVersion : String
deriving Repr, DecidableEq

/-- The orchestrator's mutable per-session fields `this.caps` and
`this.appInfo`, both initialized to null (source lines 269–270). -/
structure ServerState where
  caps : Option Caps
  appInfo : Option AppInfo
deriving Repr, DecidableEq

/-- The permission-grant step shared by bring-up step 5 (source lines
334–339) and reset step 2 (source lines 369–374): grant only when
`platformVersion >= '6.0'` under raw lexicographic string comparison,
else do nothing. -/
def grantStep (t : Tools) (env : AdbEnv) (k : Nat) (platformVersion packageName : String)
    (permissions : List String) : Nat × List Event × Except JsError Unit :=
  if jsStrGe platformVersion "6.0" then
    grantPermissions t env k none packageName permissions
  else (k, [], .ok ())

/-- `waitForAppServerStart` (source lines 418–430): poll GET /ping
starting at count 0, retrying while `count < 50`; `hp` gives the
outcome of each probe. -/
def waitForAppServerStart (hp : Nat → Except JsError Unit) :
    Nat × List Event × Except JsError Unit :=
  retryAux hp Event.ping 0 50

/-- Bring-up steps 3–8 (source lines 322–355), the tail of the promise
chain after the device is ensured running: install, package info
(stored into `appInfo` the moment it parses), conditional permission
grants, app launch, port forward, health poll.  Any failing step aborts
the remainder and surfaces the failure; `st1` is the state with the new
capabilities already stored. -/
def bringUpTail (cfg : ServerConfig) (st1 : ServerState) (t : Tools) (env : AdbEnv) (k : Nat)
    (hp : Nat → Except JsError Unit) (caps : Caps) :
    ServerState × List Event × Except JsError Unit :=
  let (k3, tr3, r3) := installApp t env k none caps.packageName caps.app
  match r3 with
  | .error e => (st1, tr3, .error e)
  | .ok _ =>
    let (k4, tr4, r4) := packageInfo t env k3 none caps.packageName
    match r4 with
    | .error e => (st1, tr3 ++ tr4, .error e)
    | .ok info =>
      let st2 := { st1 with appInfo := some info }
      let (k5, tr5, r5) := grantStep t env k4 caps.platformVersion caps.packageName
        info.requestedPermissions
      match r5 with
      | .error e => (st2, tr3 ++ tr4 ++ tr5, .error e)
      | .ok _ =>
        let (k6, tr6, r6) := startApp t env k5 none caps.packageName
        match r6 with
        | .error e => (st2, tr3 ++ tr4 ++ tr5 ++ tr6, .error e)
        | .ok _ =>
          let (_, tr7, r7) := tcpPortForward t env k6 none cfg.localAppServerPort cfg.appServerPort
          match r7 with
          | .error e => (st2, tr3 ++ tr4 ++ tr5 ++ tr6 ++ tr7, .error e)
          | .ok _ =>
            let (_, tr8, r8) := waitForAppServerStart hp
            (st2, tr3 ++ tr4 ++ tr5 ++ tr6 ++ tr7 ++ tr8, r8)

/-- `createSession` (source lines 308–356): store the request's
capabilities immediately (before the first facade call), build the
facade from them, query running devices, start the emulator only when
the target device name is absent from the parsed list, then run the
bring-up tail.  Returns the final server state, the event trace, and
success (fall-through to proxying) or the first failure. -/
def createSession (cfg : ServerConfig) (st : ServerState) (env : AdbEnv)
    (bootProbe : Nat → ExecOutcome) (hp : Nat → Except JsError Unit) (caps : Caps) :
    ServerState × List Event × Except JsError Unit :=
  let st1 : ServerState := { st with caps := some caps }
  let t : Tools := ⟨cfg.sdkPath, caps.deviceName, caps.avdName⟩
  let (k1, tr1, r1) := listRunningDevices t env 0
  match r1 with
  | .error e => (st1, tr1, .error e)
  | .ok runningDevices =>
    let present :=
      match caps.deviceName with
      | some d => runningDevices.contains d
      | none => false
    if present then
      let (st', tr', r') := bringUpTail cfg st1 t env k1 hp caps
      (st', tr1 ++ tr', r')
    else
      let (_, tr2, r2) := startDevice t bootProbe none
      match r2 with
      | .error e => (st1, tr1 ++ tr2, .error e)
      | .ok _ =>
        let (st', tr', r') := bringUpTail cfg st1 t env k1 hp caps
        (st', tr1 ++ tr2 ++ tr', r')

/-- `resetApp` (source lines 358–386): read the stored session state.
With no prior bring-up `this.caps` is still null and the very first
property read `caps.deviceName` raises a TypeError — before any tool
invocation.  Otherwise: clear app data, re-grant dangerous permissions
from the previously stored AppMetadata when `platformVersion >= '6.0'`
(dereferencing a null `appInfo` raises a TypeError inside that branch),
launch the app, health-poll.  The stored state is never modified. -/
def resetApp (cfg : ServerConfig) (st : ServerState) (env : AdbEnv)
    (hp : Nat → Except JsError Unit) :
    ServerState × List Event × Except JsError Unit :=
  match st.caps with
  | none => (st, [], .error (.typeError "Cannot read property deviceName of null"))
  | some caps =>
    let t : Tools := ⟨cfg.sdkPath, caps.deviceName, caps.avdName⟩
    let (k1, tr1, r1) := clearApp t env 0 caps.deviceName caps.packageName
    match r1 with
    | .error e => (st, tr1, .error e)
    | .ok _ =>
      let (k2, tr2, r2) :=
        match st.appInfo with
        | some info =>
          grantStep t env k1 caps.platformVersion caps.packageName info.requestedPermissions
        | none =>
          if jsStrGe caps.platformVersion "6.0" then
            (k1, ([] : List Event),
              Except.error (JsError.typeError "Cannot read property requestedPermissions of null"))
          else (k1, ([] : List Event), Except.ok ())
      match r2 with
      | .error e => (st, tr1 ++ tr2, .error e)
      | .ok _ =>
        let (_, tr3, r3) := startApp t env k2 none caps.packageName
        match r3 with
        | .error e => (st, tr1 ++ tr2 ++ tr3, .error e)
        | .ok _ =>
          let (_, tr4, r4) := waitForAppServerStart hp
          (st, tr1 ++ tr2 ++ tr3 ++ tr4, r4)

/-- An inbound HTTP request as the proxy sees it. -/
structure HttpRequest where
  method : String
  path : String
  body : String
deriving Repr, DecidableEq

/-- The request the proxy issues to the local automation server: the
yaquest dispatch key (the lowercased method name, which yaquest sends
as the corresponding uppercase HTTP method), the target URL, and the
relayed body. -/
structure SentRequest where
  method : String
  url : String
  body : String
deriving Repr, DecidableEq

/-- What the upstream HTTP client observes: a resolved response, a
rejection that carries an HTTP response (`err.res`, how yaquest reports
error statuses), or a transport-level failure with no response. -/
inductive UpstreamOutcome where
  | resolved (status : Nat) (body : String)
  | rejectedWithResponse (status : Nat) (body : String)
  | rejectedTransport (e : JsError)
deriving Repr, DecidableEq

/-- Outcome of handling one proxied request: an HTTP reply to the
caller, or an orchestration-level failure handed to `next(err)`. -/
inductive ProxyOutcome where
  | reply (status : Nat) (body : String)
  | orchFailure (e : JsError)
deriving Repr, DecidableEq

/-- `appServerUrl` (source lines 432–434). -/
def appServerUrl (cfg : ServerConfig) (p : String) : String :=
  "http://localhost:" ++ toString cfg.localAppServerPort ++ p

/-- `forwardRequestToAppServer` (source lines 388–404): send the
request with lowercased method, the app-server URL for the same path,
and the same body; relay any HTTP response (resolved or carried by the
rejection) with status and body unchanged; hand a transport failure to
the error chain. -/
def forwardRequestToAppServer (cfg : ServerConfig)
    (upstream : SentRequest → UpstreamOutcome) (req : HttpRequest) :
    SentRequest × ProxyOutcome :=
  let sent : SentRequest := ⟨jsToLower req.method, appServerUrl cfg req.path, req.body⟩
  match upstream sent with
  | .resolved s b => (sent, .reply s b)
  | .rejectedWithResponse s b => (sent, .reply s b)
  | .rejectedTransport e => (sent, .orchFailure e)

/-- The message carried by a thrown error. -/
def jsErrorMessage : JsError → String
  | .err m => m
  | .typeError m => m

/-- `handleError` (source lines 406–416): every orchestration failure
becomes a 500 response carrying the error message. -/
def handleError (e : JsError) : ProxyOutcome :=
  .reply 500 (jsErrorMessage e)

/-- The start-session control path `rootPath + '/session'`. -/
def sessionPath (cfg : ServerConfig) : String := cfg.rootPath ++ "/session"

/-- Consume a leading run of characters. -/
def dropLead : List Char → List Char → Option (List Char)
  | [], l => some l
  | _, [] => none
  | a :: as, b :: bs => if a = b then dropLead as bs else none

/-- Consume a trailing run of characters. -/
def dropTrail (suffix l : List Char) : Option (List Char) :=
  (dropLead suffix.reverse l.reverse).map List.reverse

/-- Whether a path matches the reset control route
`rootPath + '/session/:id/appium/app/reset'` (`:id` is one nonempty
slash-free segment). -/
def isResetPath (cfg : ServerConfig) (p : String) : Bool :=
  match dropLead (cfg.rootPath ++ "/session/").data p.data with
  | none => false
  | some rest =>
    match dropTrail "/appium/app/reset".data rest with
    | none => false
    | some mid => !mid.isEmpty && !mid.contains '/'

/-- Which handler express dispatches a request to (source lines
286–306): the two POST control routes are registered first, everything
else falls through to the forwarding middleware. -/
inductive RouteTarget where
  | session
  | reset
  | forward
deriving Repr, DecidableEq

/-- Routing of one inbound request. -/
def route (cfg : ServerConfig) (req : HttpRequest) : RouteTarget :=
  if req.method = "POST" && req.path = sessionPath cfg then .session
  else if req.method = "POST" && isResetPath cfg req.path then .reset
  else .forward

/-- Whether an event is an emulator spawn. -/
def isSpawnEvent : Event → Bool
  | .spawnEmulator _ => true
  | _ => false

/-- Count of emulator spawn events in a trace. -/
def spawnCount (tr : List Event) : Nat :=
  tr.countP isSpawnEvent

/-- The adb sub-commands of a trace, in order. -/
def adbCmds (tr : List Event) : List String :=
  tr.filterMap (fun e =>
    match e with
    | .adb c => some c
    | _ => none)

/-- The uppercase ASCII letters (HTTP method alphabet). -/
def isHttpUpperAlpha (c : Char) : Bool :=
  "ABCDEFGHIJKLMNOPQRSTUVWXYZ".data.contains c

/-- An adb environment reading canned outcomes off a list, like the
test suite's queue of mock results. -/
def envOfList (xs : List ExecOutcome) : AdbEnv :=
  fun k => xs.getD k (.output "" "")

/-- Concrete configuration used by the example instantiations, matching
the defaults of the source constructor. -/
def cfgEx : ServerConfig :=
  ⟨4723, 7100, 6100, "/wd/hub", "/opt/sdk"⟩

/-- Concrete capabilities used by the example instantiations, matching
the device-already-running test. -/
def capsEx : Caps :=
  ⟨some "emulator-5554", none, "fi.foo.bar", "/path/to/app.apk", "6.0"⟩

/-- Concrete tools configuration with a device name set. -/
def toolsEx : Tools := ⟨"/opt/sdk", some "emulator-5554", none⟩

/-- Concrete tools configuration with no device name anywhere. -/
def toolsNoDevice : Tools := ⟨"/opt/sdk", none, none⟩

/-- Canned dumpsys output requesting two dangerous permissions. -/
def dumpsysEx : String :=
  "pkg\nrequested permissions:\nandroid.permission.RECORD_AUDIO\nandroid.permission.USE_SIP\ninstall permissions:\n"

/-- Canned adb outcomes for a full bring-up with the device already
running, platform 6.0 and two dangerous permissions. -/
def envEx : AdbEnv :=
  envOfList [
    .output "List of devices attached\nemulator-5554 device" "",
    .output "" "",
    .output "" "",
    .output dumpsysEx "",
    .output "" "",
    .output "" "",
    .output "" "",
    .output "" ""]

/-- A health probe that succeeds immediately. -/
def hpOk : Nat → Except JsError Unit := fun _ => .ok ()

/-- A health probe that always fails (server never reachable). -/
def hpFail : Nat → Except JsError Unit := fun _ => .error (.err "connect ECONNREFUSED")

/-- A boot probe whose device never answers (exec always errors). -/
def bootFail : Nat → ExecOutcome := fun _ => .execErr "device offline"

/-- A previous session's AppMetadata, used to exhibit staleness. -/
def infoOld : AppInfo := ⟨["fi.old.permission"]⟩

/-- A concrete non-control request, as reaching the catch-all. -/
def reqEx : HttpRequest := ⟨"GET", "/wd/hub/session/s1/elements", "findBody"⟩

/-- A concrete automation server returning an error status. -/
def upstreamEx : SentRequest → UpstreamOutcome := fun _ => .resolved 404 "not found"

/-- Canned adb outcomes where the device is running but the `install`
invocation (the third adb call) fails. -/
def envInstallFail : AdbEnv :=
  envOfList [
    .output "List of devices attached\nemulator-5554 device" "",
    .output "" "",
    .execErr "install failed"]

/-! ## Helper lemmas -/

theorem jsOr_none_left (b : Option String) : jsOr none b = b := by
  simp [jsOr, truthy]

theorem jsOr_self (a : Option String) : jsOr a a = a := by
  simp [jsOr]

theorem truthy_some_of_ne (d : String) (h : d ≠ "") : truthy (some d) = true := by
  simp [truthy, h]

theorem retryAux_count_le (probe : Nat → Except JsError Unit) (ev : Event) :
    ∀ f a, (retryAux probe ev a f).1 ≤ f + 1 := by
  intro f
  induction f with
  | zero =>
    intro a
    cases h : probe a <;> simp [retryAux, h]
  | succ f ih =>
    intro a
    cases h : probe a with
    | ok v => simp [retryAux, h]
    | error e =>
      have := ih (a + 1)
      simp only [retryAux, h]
      omega

theorem retryAux_allFail (probe : Nat → Except JsError Unit) (ev : Event)
    (h : ∀ a, ∃ e, probe a = Except.error e) :
    ∀ f a, retryAux probe ev a f = (f + 1, List.replicate (f + 1) ev, probe (a + f)) := by
  intro f
  induction f with
  | zero =>
    intro a
    obtain ⟨e, he⟩ := h a
    simp [retryAux, he]
  | succ f ih =>
    intro a
    obtain ⟨e, he⟩ := h a
    have hx : a + 1 + f = a + (f + 1) := by omega
    simp [retryAux, he, ih (a + 1), hx, List.replicate_succ]

/-! ## Claim theorems -/

/-- Claim C6: a facade tool invocation fails if and only if the
underlying command execution itself errored, or the captured stdout
begins (case-insensitively) with `error`, or the captured stderr does;
in every other case it succeeds and yields the captured stdout and
stderr. -/
theorem exec_failure_semantics (o : ExecOutcome) :
    ((exec o).isOk = false ↔
      (∃ m, o = .execErr m) ∨
      (∃ out err, o = .output out err ∧
        (startsWithError out = true ∨ startsWithError err = true))) ∧
    (∀ out err, o = .output out err → startsWithError out = false →
      startsWithError err = false → exec o = .ok ⟨out, err⟩) := by
  constructor
  · cases o with
    | execErr m => simp [exec, Except.isOk, Except.toBool]
    | output out err =>
      by_cases ho : startsWithError out <;> by_cases he : startsWithError err <;>
        simp [exec, Except.isOk, Except.toBool, ho, he] <;>
        exact ⟨out, err, ⟨rfl, rfl⟩, by simp [ho, he]⟩
  · intro out err heq ho he
    subst heq
    simp [exec, ho, he]

/-- Witness for C6 at a concrete invocation outcome. -/
theorem exec_failure_semantics_witness :
    exec (ExecOutcome.output "Success\n" "warning: x\n") = .ok ⟨"Success\n", "warning: x\n"⟩ :=
  (exec_failure_semantics (.output "Success\n" "warning: x\n")).2 "Success\n" "warning: x\n"
    rfl (by decide) (by decide)

/-- Counterexample to claim C2 as stated: a device-boot probe that
never becomes ready is invoked 61 times, not the claimed 60 (one
initial attempt plus 60 retries, since the source retries while
`attempt < 60` at `attempt + 1`), and a health probe that never
becomes ready is invoked 51 times, not the claimed 50.  The trace
length counts the actual probe invocations issued. -/
theorem poller_attempt_count_cx :
    (waitUntilRunning toolsEx bootFail).1 = 61 ∧
    (waitUntilRunning toolsEx bootFail).2.1.length = 61 ∧
    (waitUntilRunning toolsEx bootFail).1 ≠ 60 ∧
    (waitForAppServerStart hpFail).1 = 51 ∧
    (waitForAppServerStart hpFail).2.1.length = 51 ∧
    (waitForAppServerStart hpFail).1 ≠ 50 := by
  refine ⟨by decide, by decide, by decide, by decide, by decide, by decide⟩

/-- Claim C2 (amended): for every probe that never becomes ready, the
device-boot poll invokes the probe exactly 61 times (the initial
attempt plus its 60 retries) and the app-server-health poll exactly 51
times (the initial attempt plus its 50 retries), then each stops and
propagates the last probe failure — the result is exactly the outcome
of the final attempt (attempt 60, resp. 50); neither retries forever.
-/
theorem poller_bounded_amended (t : Tools) (bp : Nat → ExecOutcome)
    (hp : Nat → Except JsError Unit)
    (hd : truthy t.deviceName = true)
    (hbp : ∀ a, ∃ e, bootAttempt (bp a) = Except.error e)
    (hhp : ∀ c, ∃ e, hp c = Except.error e) :
    (waitUntilRunning t bp).1 = 61 ∧
    (waitUntilRunning t bp).2.1.length = 61 ∧
    (waitUntilRunning t bp).2.2 = bootAttempt (bp 60) ∧
    (waitForAppServerStart hp).1 = 51 ∧
    (waitForAppServerStart hp).2.1.length = 51 ∧
    (waitForAppServerStart hp).2.2 = hp 50 := by
  have h1 := retryAux_allFail (fun a => bootAttempt (bp a))
    (Event.adb "shell pm list packages") hbp 60 0
  have h2 := retryAux_allFail hp Event.ping hhp 50 0
  have hw : waitUntilRunning t bp =
      retryAux (fun a => bootAttempt (bp a)) (Event.adb "shell pm list packages") 0 60 := by
    simp [waitUntilRunning, hd]
  rw [hw, h1]
  rw [waitForAppServerStart, h2]
  simp

/-- Witness for C2 (amended): the two never-ready probes above. -/
theorem poller_bounded_amended_witness :
    (waitUntilRunning toolsEx bootFail).1 = 61 ∧
    (waitUntilRunning toolsEx bootFail).2.2 = bootAttempt (bootFail 60) ∧
    (waitForAppServerStart hpFail).1 = 51 ∧
    (waitForAppServerStart hpFail).2.2 = hpFail 50 := by
  have h := poller_bounded_amended toolsEx bootFail hpFail (by decide)
    (fun a => ⟨JsError.err "device offline", rfl⟩)
    (fun c => ⟨JsError.err "connect ECONNREFUSED", rfl⟩)
  exact ⟨h.1, h.2.2.1, h.2.2.2.1, h.2.2.2.2.2⟩

theorem jsOr_of_truthy (a b : Option String) (h : truthy a = true) : jsOr a b = a := by
  simp [jsOr, h]

/-- Claim C7: `installApp` first issues the uninstall of the target
package and swallows any failure of it (the result below does not
depend on the uninstall outcome `env k` at all), then issues the
install from the artifact path, and its overall result is exactly the
install invocation's result. -/
theorem installApp_swallows_uninstall (t : Tools) (env : AdbEnv) (k : Nat) (dn : Option String)
    (packageName apkPath : String) (hd : truthy (jsOr dn t.deviceName) = true) :
    installApp t env k dn packageName apkPath =
      (k + 2,
       [Event.adb ("uninstall " ++ packageName), Event.adb ("install " ++ apkPath)],
       exec (env (k + 1))) := by
  have hres : jsOr (jsOr dn t.deviceName) t.deviceName = jsOr dn t.deviceName :=
    jsOr_of_truthy _ _ hd
  simp [installApp, execAdb, hres, hd]

/-- Witness for C7: the uninstall outcome (index 1 of `envEx`) is
irrelevant; the result is the install invocation's. -/
theorem installApp_swallows_uninstall_witness :
    installApp toolsEx envEx 1 none "fi.foo.bar" "/path/to/app.apk" =
      (3,
       [Event.adb "uninstall fi.foo.bar", Event.adb "install /path/to/app.apk"],
       exec (envEx 2)) :=
  installApp_swallows_uninstall toolsEx envEx 1 none "fi.foo.bar" "/path/to/app.apk" (by decide)

/-- Counterexample to claim C10 as stated: `grantPermissions` is one of
the listed facade operations, yet invoked with a permission list whose
dangerous-filtered subset is empty (here the empty list) and no device
name anywhere, it succeeds — `Promise.all` over the empty mapped array
resolves before any `execAdb` call can throw `missing deviceName`. -/
theorem grantPermissions_noDevice_cx :
    grantPermissions toolsNoDevice envEx 0 none "fi.foo.bar" [] = (0, [], Except.ok ()) ∧
    (grantPermissions toolsNoDevice envEx 0 none "fi.foo.bar" []).2.2 ≠
      Except.error (JsError.err "missing deviceName") := by
  refine ⟨by decide, by decide⟩

/-- Claim C10 (amended): with neither a per-call nor a configured
default device name, every listed facade operation fails with the
`missing deviceName` error thrown synchronously before any command is
executed (empty event trace) — except `grantPermissions`, which throws
that way only when its dangerous-filtered permission list is nonempty,
and succeeds without issuing any invocation when the filtered list is
empty. -/
theorem missing_deviceName_amended (t : Tools) (env : AdbEnv) (k : Nat) (dn : Option String)
    (pkg apk : String) (hostPort devicePort : Nat) (perms : List String)
    (ht : truthy t.deviceName = false) (hdn : truthy dn = false) :
    listRunningDevices t env k = (k, [], .error (.err "missing deviceName")) ∧
    listPackages t env k dn = (k, [], .error (.err "missing deviceName")) ∧
    packageInfo t env k dn pkg = (k, [], .error (.err "missing deviceName")) ∧
    installApp t env k dn pkg apk = (k, [], .error (.err "missing deviceName")) ∧
    clearApp t env k dn pkg = (k, [], .error (.err "missing deviceName")) ∧
    startApp t env k dn pkg = (k, [], .error (.err "missing deviceName")) ∧
    tcpPortForward t env k dn hostPort devicePort =
      (k, [], .error (.err "missing deviceName")) ∧
    (perms.filter (fun p => DANGEROUS_PERMISSIONS.contains p) = [] →
      grantPermissions t env k dn pkg perms = (k, [], .ok ())) ∧
    (perms.filter (fun p => DANGEROUS_PERMISSIONS.contains p) ≠ [] →
      grantPermissions t env k dn pkg perms =
        (k, [], .error (.err "missing deviceName"))) := by
  have hj : jsOr dn t.deviceName = t.deviceName := by simp [jsOr, hdn]
  have hj2 : truthy (jsOr dn t.deviceName) = false := by rw [hj]; exact ht
  have hn : truthy (jsOr none t.deviceName) = false := by rw [jsOr_none_left]; exact ht
  have hs : truthy (jsOr (jsOr dn t.deviceName) t.deviceName) = false := by
    rw [hj, jsOr_self]; exact ht
  refine ⟨?_, ?_, ?_, ?_, ?_, ?_, ?_, ?_, ?_⟩
  · simp [listRunningDevices, execAdb, hn, Except.map]
  · simp [listPackages, execAdb, hj2, Except.map]
  · simp [packageInfo, execAdb, hj2, Except.map]
  · simp [installApp, execAdb, hs]
  · simp [clearApp, execAdb, hj2]
  · simp [startApp, execAdb, hj2]
  · simp [tcpPortForward, execAdb, hj2]
  · intro h
    simp_all [grantPermissions, hj2]
  · intro h
    simp_all [grantPermissions, hj2]

/-- Witness for C10 (amended): concrete operations with no device name
set anywhere. -/
theorem missing_deviceName_amended_witness :
    listPackages toolsNoDevice envEx 0 none =
      (0, [], Except.error (JsError.err "missing deviceName")) ∧
    grantPermissions toolsNoDevice envEx 0 none "fi.foo.bar"
        ["android.permission.USE_SIP"] =
      (0, [], Except.error (JsError.err "missing deviceName")) := by
  have h := missing_deviceName_amended toolsNoDevice envEx 0 none "fi.foo.bar" "/a.apk"
    6100 7100 ["android.permission.USE_SIP"] (by decide) (by decide)
  exact ⟨h.2.1, h.2.2.2.2.2.2.2.2 (by decide)⟩

/-- Counterexample to claim C1 as stated: with no session ever created
(`caps` still null), reset-app fails by dereferencing the absent
session state — the result is the TypeError raised reading
`caps.deviceName`, a null-reference fault, not a distinguishable
missing-session error; no tool invocation is issued. -/
theorem resetApp_noSession_nullDeref_cx :
    (resetApp cfgEx ⟨none, none⟩ envEx hpOk).2.2 =
      Except.error (JsError.typeError "Cannot read property deviceName of null") ∧
    (resetApp cfgEx ⟨none, none⟩ envEx hpOk).2.2 ≠
      Except.error (JsError.err "no active session") ∧
    (resetApp cfgEx ⟨none, none⟩ envEx hpOk).2.1 = [] := by
  refine ⟨by decide, by decide, by decide⟩

/-- Claim C1 (amended): a reset-app arriving before any start-session
has been handled fails fast — before any tool invocation, leaving the
stored state untouched — but it fails with the null-reference TypeError
from reading `deviceName` off the null stored capabilities, which is
then reported to the client as a 500 response carrying that message;
no distinguishable 'no active session' error is produced. -/
theorem resetApp_noSession_amended (cfg : ServerConfig) (st : ServerState) (env : AdbEnv)
    (hp : Nat → Except JsError Unit) (h : st.caps = none) :
    resetApp cfg st env hp =
      (st, [], .error (.typeError "Cannot read property deviceName of null")) ∧
    handleError (JsError.typeError "Cannot read property deviceName of null") =
      .reply 500 "Cannot read property deviceName of null" := by
  constructor
  · simp [resetApp, h]
  · rfl

/-- Witness for C1 (amended) at the initial server state. -/
theorem resetApp_noSession_amended_witness :
    resetApp cfgEx ⟨none, none⟩ envEx hpOk =
      (⟨none, none⟩, [],
       Except.error (JsError.typeError "Cannot read property deviceName of null")) :=
  (resetApp_noSession_amended cfgEx ⟨none, none⟩ envEx hpOk rfl).1

theorem grantLoop_trace (t : Tools) (env : AdbEnv) (d : Option String) (pkg : String)
    (hd : truthy (jsOr d t.deviceName) = true) :
    ∀ l k, (grantLoop t env d pkg k l).2.1 =
      l.map (fun p => Event.adb ("shell pm grant " ++ pkg ++ " " ++ p)) := by
  intro l
  induction l with
  | nil => intro k; rfl
  | cons p rest ih =>
    intro k
    simp [grantLoop, execAdb, hd, ih]

theorem grantStep_trace_ge (t : Tools) (env : AdbEnv) (k : Nat) (pv pkg : String)
    (perms : List String) (hd : truthy t.deviceName = true)
    (hge : jsStrGe pv "6.0" = true) :
    (grantStep t env k pv pkg perms).2.1 =
      (perms.filter fun p => DANGEROUS_PERMISSIONS.contains p).map
        (fun p => Event.adb ("shell pm grant " ++ pkg ++ " " ++ p)) := by
  have h1 : truthy (jsOr none t.deviceName) = true := by rw [jsOr_none_left]; exact hd
  have h2 : truthy (jsOr (jsOr none t.deviceName) t.deviceName) = true := by
    rw [jsOr_none_left, jsOr_self]; exact hd
  simp [grantStep, hge, grantPermissions, h1,
    grantLoop_trace t env (jsOr none t.deviceName) pkg h2]

/-- Claim C3: when `platformVersion` compares `>= '6.0'` under raw
lexicographic string comparison, the grant step issues exactly one
`shell pm grant` invocation per element of the filter of the requested
permissions against the fixed `DANGEROUS_PERMISSIONS` constant (their
intersection, kept in list order); when it compares below — as the
double-digit string `10.0` does, while `9.0` does not — the step
issues nothing.  The same `grantStep` is invoked by `createSession`
(bring-up) with the freshly parsed AppMetadata and by `resetApp`
(reset) with the stored AppMetadata: the last conjunct re-checks this
inside a reset trace. -/
theorem grant_intersection (t : Tools) (env : AdbEnv) (k : Nat) (pv pkg : String)
    (perms : List String) (hd : truthy t.deviceName = true) :
    (jsStrGe pv "6.0" = true →
      (grantStep t env k pv pkg perms).2.1 =
        (perms.filter fun p => DANGEROUS_PERMISSIONS.contains p).map
          (fun p => Event.adb ("shell pm grant " ++ pkg ++ " " ++ p))) ∧
    (jsStrGe pv "6.0" = false → grantStep t env k pv pkg perms = (k, [], .ok ())) ∧
    jsStrGe "10.0" "6.0" = false ∧
    jsStrGe "9.0" "6.0" = true ∧
    (∀ cfg st hp caps info r0,
      st.caps = some caps → st.appInfo = some info →
      truthy caps.deviceName = true →
      exec (env 0) = Except.ok r0 →
      jsStrGe caps.platformVersion "6.0" = true →
      ∃ rest, (resetApp cfg st env hp).2.1 =
        Event.adb ("shell pm clear " ++ caps.packageName) ::
          ((info.requestedPermissions.filter fun p => DANGEROUS_PERMISSIONS.contains p).map
            (fun p => Event.adb ("shell pm grant " ++ caps.packageName ++ " " ++ p)) ++ rest)) := by
  refine ⟨fun hge => grantStep_trace_ge t env k pv pkg perms hd hge,
    fun hlt => by simp [grantStep, hlt], by decide, by decide, ?_⟩
  intro cfg st hp caps info r0 hc ha hdev h0 hge
  have hself : truthy (jsOr caps.deviceName caps.deviceName) = true := by
    rw [jsOr_self]; exact hdev
  have hn1 : truthy (jsOr none caps.deviceName) = true := by
    rw [jsOr_none_left]; exact hdev
  simp only [resetApp, hc, ha, clearApp, execAdb, jsOr_self, hdev, if_true, h0]
  rcases hg : grantStep ⟨cfg.sdkPath, caps.deviceName, caps.avdName⟩ env 1
      caps.platformVersion caps.packageName info.requestedPermissions with ⟨k2, tr2, r2⟩
  have htr2 : tr2 =
      (info.requestedPermissions.filter fun p => DANGEROUS_PERMISSIONS.contains p).map
        (fun p => Event.adb ("shell pm grant " ++ caps.packageName ++ " " ++ p)) := by
    have h2 := grantStep_trace_ge ⟨cfg.sdkPath, caps.deviceName, caps.avdName⟩ env 1
      caps.platformVersion caps.packageName info.requestedPermissions hdev hge
    rw [hg] at h2
    exact h2
  cases r2 with
  | error e =>
    exact ⟨[], by simp [htr2]⟩
  | ok u =>
    simp only [startApp, execAdb, jsOr_none_left, hdev, if_true]
    cases hr3 : exec (env k2) with
    | error e =>
      exact ⟨[Event.adb ("shell monkey -p " ++ caps.packageName ++
        " -c android.intent.category.LAUNCHER 1")], by simp [htr2]⟩
    | ok u3 =>
      rcases hw : waitForAppServerStart hp with ⟨n4, tr4, r4⟩
      exact ⟨Event.adb ("shell monkey -p " ++ caps.packageName ++
        " -c android.intent.category.LAUNCHER 1") :: tr4, by simp [htr2, hw]⟩

/-- Witness for C3: platform `6.0`, one dangerous and one
non-dangerous requested permission — exactly one grant is issued. -/
theorem grant_intersection_witness :
    (grantStep toolsEx envEx 0 "6.0" "fi.foo.bar"
      ["android.permission.RECORD_AUDIO", "fi.some.permission"]).2.1 =
      [Event.adb "shell pm grant fi.foo.bar android.permission.RECORD_AUDIO"] ∧
    (grantStep toolsEx envEx 0 "5.1" "fi.foo.bar"
      ["android.permission.RECORD_AUDIO", "fi.some.permission"]) = (0, [], .ok ()) := by
  have h := grant_intersection toolsEx envEx 0 "6.0" "fi.foo.bar"
    ["android.permission.RECORD_AUDIO", "fi.some.permission"] (by decide)
  have h5 := grant_intersection toolsEx envEx 0 "5.1" "fi.foo.bar"
    ["android.permission.RECORD_AUDIO", "fi.some.permission"] (by decide)
  constructor
  · rw [h.1 (by decide)]
    decide
  · exact h5.2.1 (by decide)

theorem upperRound (c : Char) (h : isHttpUpperAlpha c = true) :
    jsToUpperChar (jsToLowerChar c) = c := by
  have hall : ∀ x ∈ "ABCDEFGHIJKLMNOPQRSTUVWXYZ".data,
      jsToUpperChar (jsToLowerChar x) = x := by decide
  have hmem : c ∈ "ABCDEFGHIJKLMNOPQRSTUVWXYZ".data := by
    simpa [isHttpUpperAlpha] using h
  exact hall c hmem

theorem mapRound (l : List Char) (h : l.all isHttpUpperAlpha = true) :
    (l.map jsToLowerChar).map jsToUpperChar = l := by
  induction l with
  | nil => rfl
  | cons c cs ih =>
    rw [List.all_cons, Bool.and_eq_true] at h
    simp [upperRound c h.1, ih h.2]

theorem jsUpperLowerRound (s : String) (h : s.data.all isHttpUpperAlpha = true) :
    jsToUpper (jsToLower s) = s := by
  cases s with
  | mk l => exact congrArg String.mk (mapRound l h)

/-- Claim C8: every request whose path is not one of the two control
endpoints is routed to the forwarding middleware; the forwarded request
targets the automation server URL for the same path, carries the same
body, and the same HTTP method (dispatched through its lowercased
name, which denotes the original uppercase method); any HTTP response
from the automation server — resolved or carried by the rejection, so
including error statuses — is relayed with status and body unchanged;
and a transport-level failure producing no HTTP response becomes an
orchestration failure, which the error handler turns into a 500
response. -/
theorem proxy_forwarding (cfg : ServerConfig) (upstream : SentRequest → UpstreamOutcome)
    (req : HttpRequest)
    (hs : req.path ≠ sessionPath cfg) (hr : isResetPath cfg req.path = false)
    (hm : req.method.data.all isHttpUpperAlpha = true) :
    route cfg req = .forward ∧
    (forwardRequestToAppServer cfg upstream req).1 =
      ⟨jsToLower req.method, appServerUrl cfg req.path, req.body⟩ ∧
    jsToUpper (forwardRequestToAppServer cfg upstream req).1.method = req.method ∧
    (∀ s b,
      upstream ⟨jsToLower req.method, appServerUrl cfg req.path, req.body⟩ = .resolved s b →
      (forwardRequestToAppServer cfg upstream req).2 = .reply s b) ∧
    (∀ s b,
      upstream ⟨jsToLower req.method, appServerUrl cfg req.path, req.body⟩ =
        .rejectedWithResponse s b →
      (forwardRequestToAppServer cfg upstream req).2 = .reply s b) ∧
    (∀ e,
      upstream ⟨jsToLower req.method, appServerUrl cfg req.path, req.body⟩ =
        .rejectedTransport e →
      (forwardRequestToAppServer cfg upstream req).2 = .orchFailure e ∧
      handleError e = .reply 500 (jsErrorMessage e)) := by
  refine ⟨?_, ?_, ?_, ?_, ?_, ?_⟩
  · simp [route, hs, hr]
  · simp [forwardRequestToAppServer]
    cases hu : upstream ⟨jsToLower req.method, appServerUrl cfg req.path, req.body⟩ <;>
      simp [hu]
  · have hfst : (forwardRequestToAppServer cfg upstream req).1 =
        ⟨jsToLower req.method, appServerUrl cfg req.path, req.body⟩ := by
      simp [forwardRequestToAppServer]
      cases hu : upstream ⟨jsToLower req.method, appServerUrl cfg req.path, req.body⟩ <;>
        simp [hu]
    rw [hfst]
    exact jsUpperLowerRound req.method hm
  · intro s b hu
    simp [forwardRequestToAppServer, hu]
  · intro s b hu
    simp [forwardRequestToAppServer, hu]
  · intro e hu
    exact ⟨by simp [forwardRequestToAppServer, hu], rfl⟩

/-- Witness for C8: a non-control GET relayed through the proxy, with
the automation server answering 404 — relayed unchanged. -/
theorem proxy_forwarding_witness :
    route cfgEx reqEx = .forward ∧
    (forwardRequestToAppServer cfgEx upstreamEx reqEx).1 =
      ⟨"get", "http://localhost:6100/wd/hub/session/s1/elements", "findBody"⟩ ∧
    (forwardRequestToAppServer cfgEx upstreamEx reqEx).2 = .reply 404 "not found" := by
  have h := proxy_forwarding cfgEx upstreamEx reqEx (by decide) (by decide) (by decide)
  refine ⟨h.1, ?_, h.2.2.2.1 404 "not found" rfl⟩
  rw [h.2.1]
  decide

theorem spawnCount_nil : spawnCount [] = 0 := rfl

theorem spawnCount_cons (e : Event) (tr : List Event) :
    spawnCount (e :: tr) = spawnCount tr + (if isSpawnEvent e then 1 else 0) := by
  simp [spawnCount, List.countP_cons]

theorem spawnCount_append (a b : List Event) :
    spawnCount (a ++ b) = spawnCount a + spawnCount b := by
  simp [spawnCount, List.countP_append]

theorem spawnCount_execAdb (t : Tools) (env : AdbEnv) (k : Nat) (dn : Option String)
    (cmd : String) : spawnCount (execAdb t env k dn cmd).2.1 = 0 := by
  unfold execAdb
  split <;> simp [spawnCount, List.countP_cons, isSpawnEvent]

theorem spawnCount_retryAux (probe : Nat → Except JsError Unit) (ev : Event)
    (h : isSpawnEvent ev = false) :
    ∀ f a, spawnCount (retryAux probe ev a f).2.1 = 0 := by
  intro f
  induction f with
  | zero =>
    intro a
    cases hp : probe a <;> simp [retryAux, hp, spawnCount_cons, spawnCount_nil, h]
  | succ f ih =>
    intro a
    cases hp : probe a <;>
      simp [retryAux, hp, spawnCount_cons, spawnCount_nil, h, ih (a + 1)]

theorem spawnCount_installApp (t : Tools) (env : AdbEnv) (k : Nat) (dn : Option String)
    (pkg apk : String) : spawnCount (installApp t env k dn pkg apk).2.1 = 0 := by
  simp [installApp, spawnCount_append, spawnCount_execAdb]

theorem spawnCount_packageInfo (t : Tools) (env : AdbEnv) (k : Nat) (dn : Option String)
    (pkg : String) : spawnCount (packageInfo t env k dn pkg).2.1 = 0 := by
  simp [packageInfo, spawnCount_execAdb]

theorem spawnCount_startApp (t : Tools) (env : AdbEnv) (k : Nat) (dn : Option String)
    (pkg : String) : spawnCount (startApp t env k dn pkg).2.1 = 0 :=
  spawnCount_execAdb t env k dn _

theorem spawnCount_tcpPortForward (t : Tools) (env : AdbEnv) (k : Nat) (dn : Option String)
    (hostPort devicePort : Nat) :
    spawnCount (tcpPortForward t env k dn hostPort devicePort).2.1 = 0 :=
  spawnCount_execAdb t env k dn _

theorem spawnCount_grantLoop (t : Tools) (env : AdbEnv) (d : Option String) (pkg : String) :
    ∀ l k, spawnCount (grantLoop t env d pkg k l).2.1 = 0 := by
  intro l
  induction l with
  | nil => intro k; rfl
  | cons p rest ih =>
    intro k
    simp [grantLoop, spawnCount_append, spawnCount_execAdb, ih]

theorem spawnCount_grantPermissions (t : Tools) (env : AdbEnv) (k : Nat) (dn : Option String)
    (pkg : String) (perms : List String) :
    spawnCount (grantPermissions t env k dn pkg perms).2.1 = 0 := by
  unfold grantPermissions
  dsimp only
  split
  · simp [spawnCount_grantLoop]
  · split <;> simp [spawnCount_nil]

theorem spawnCount_grantStep (t : Tools) (env : AdbEnv) (k : Nat) (pv pkg : String)
    (perms : List String) : spawnCount (grantStep t env k pv pkg perms).2.1 = 0 := by
  unfold grantStep
  split
  · exact spawnCount_grantPermissions t env k none pkg perms
  · rfl

theorem spawnCount_waitForAppServerStart (hp : Nat → Except JsError Unit) :
    spawnCount (waitForAppServerStart hp).2.1 = 0 :=
  spawnCount_retryAux hp Event.ping (by rfl) 50 0

theorem spawnCount_waitUntilRunning (t : Tools) (bp : Nat → ExecOutcome) :
    spawnCount (waitUntilRunning t bp).2.1 = 0 := by
  unfold waitUntilRunning
  split
  · exact spawnCount_retryAux (fun a => bootAttempt (bp a))
      (Event.adb "shell pm list packages") (by rfl) 60 0
  · rfl

theorem bringUpTail_state (cfg : ServerConfig) (st1 : ServerState) (t : Tools) (env : AdbEnv)
    (k : Nat) (hp : Nat → Except JsError Unit) (caps : Caps) :
    (bringUpTail cfg st1 t env k hp caps).1.caps = st1.caps ∧
    spawnCount (bringUpTail cfg st1 t env k hp caps).2.1 = 0 := by
  unfold bringUpTail
  dsimp only
  constructor
  · repeat' split
    all_goals rfl
  · repeat' split
    all_goals simp [spawnCount_append, spawnCount_installApp, spawnCount_packageInfo,
      spawnCount_grantStep, spawnCount_startApp, spawnCount_tcpPortForward,
      spawnCount_waitForAppServerStart]

theorem spawnCount_bringUpTail (cfg : ServerConfig) (st1 : ServerState) (t : Tools)
    (env : AdbEnv) (k : Nat) (hp : Nat → Except JsError Unit) (caps : Caps) :
    spawnCount (bringUpTail cfg st1 t env k hp caps).2.1 = 0 :=
  (bringUpTail_state cfg st1 t env k hp caps).2

theorem bringUpTail_caps (cfg : ServerConfig) (st1 : ServerState) (t : Tools)
    (env : AdbEnv) (k : Nat) (hp : Nat → Except JsError Unit) (caps : Caps) :
    (bringUpTail cfg st1 t env k hp caps).1.caps = st1.caps :=
  (bringUpTail_state cfg st1 t env k hp caps).1

/-- Claim C5: with the running-device query of step 1 succeeding, bring-up
spawns an emulator process if and only if the target device name is
absent from the parsed running-device list: when present, no spawn
event occurs anywhere in the bring-up trace; when absent, the trace is
exactly the devices query followed immediately by one spawn of the
configured avd image, and no further spawn occurs. -/
theorem spawn_iff_absent (cfg : ServerConfig) (st : ServerState) (env : AdbEnv)
    (bp : Nat → ExecOutcome) (hp : Nat → Except JsError Unit) (caps : Caps)
    (d : String) (res : ExecSuccess)
    (hdn : caps.deviceName = some d) (hne : d ≠ "")
    (h0 : exec (env 0) = .ok res) :
    ((parseDevices res.stdout).contains d = true →
      spawnCount (createSession cfg st env bp hp caps).2.1 = 0) ∧
    ((parseDevices res.stdout).contains d = false →
      ∃ rest, (createSession cfg st env bp hp caps).2.1 =
          Event.adb "devices" :: Event.spawnEmulator caps.avdName :: rest ∧
        spawnCount rest = 0) := by
  have htd : truthy (some d) = true := truthy_some_of_ne d hne
  constructor
  · intro hpres
    have hpres2 : d ∈ parseDevices res.stdout := by simpa using hpres
    simp [createSession, listRunningDevices, execAdb, jsOr_none_left, hdn, htd, h0, hpres2,
      Except.map, spawnCount_append, spawnCount_cons, spawnCount_nil, isSpawnEvent,
      spawnCount_bringUpTail]
  · intro habs
    have habs2 : ¬ d ∈ parseDevices res.stdout := by simpa using habs
    simp only [createSession, listRunningDevices, execAdb, jsOr_none_left, hdn, htd, if_true,
      h0, Except.map, startDevice, waitUntilRunning]
    simp only [habs, Bool.false_eq_true, if_false]
    cases hr : (retryAux (fun a => bootAttempt (bp a))
        (Event.adb "shell pm list packages") 0 60).2.2 with
    | error e =>
      refine ⟨(retryAux (fun a => bootAttempt (bp a))
          (Event.adb "shell pm list packages") 0 60).2.1, ?_, ?_⟩
      · simp [hr]
      · exact spawnCount_retryAux (fun a => bootAttempt (bp a))
          (Event.adb "shell pm list packages") (by rfl) 60 0
    | ok u =>
      refine ⟨(retryAux (fun a => bootAttempt (bp a))
          (Event.adb "shell pm list packages") 0 60).2.1 ++
          (bringUpTail cfg { st with caps := some caps }
            ⟨cfg.sdkPath, some d, caps.avdName⟩ env 1 hp caps).2.1, ?_, ?_⟩
      · simp [hr]
      · simp [spawnCount_append, spawnCount_bringUpTail,
          spawnCount_retryAux (fun a => bootAttempt (bp a))
            (Event.adb "shell pm list packages") (by rfl) 60 0]

/-- Witness for C5: the device-already-running scenario issues no
spawn. -/
theorem spawn_iff_absent_witness :
    spawnCount (createSession cfgEx ⟨none, none⟩ envEx bootFail hpOk capsEx).2.1 = 0 :=
  (spawn_iff_absent cfgEx ⟨none, none⟩ envEx bootFail hpOk capsEx "emulator-5554"
    ⟨"List of devices attached\nemulator-5554 device", ""⟩ rfl (by decide) rfl).1 (by decide)

/-- Claim C9: `createSession` stores the request's capabilities
unconditionally — whatever the outcome of every step, the final state
carries the new capabilities (conjunct 1, which covers in particular a
failure of the very first facade call); the stored AppMetadata is
overwritten as soon as package info parses, and stays overwritten for
every later outcome (conjunct 3); and when bring-up fails before the
package-info step — here at the install invocation — the previous
session's AppMetadata is left in place next to the failed request's
capabilities (conjunct 2). -/
theorem session_state_overwrite (cfg : ServerConfig) (st : ServerState) (env : AdbEnv)
    (bp : Nat → ExecOutcome) (hp : Nat → Except JsError Unit) (caps : Caps) :
    ((createSession cfg st env bp hp caps).1.caps = some caps) ∧
    (∀ d res eI, caps.deviceName = some d → d ≠ "" →
      exec (env 0) = .ok res → (parseDevices res.stdout).contains d = true →
      exec (env 2) = .error eI →
      (createSession cfg st env bp hp caps).1 = ⟨some caps, st.appInfo⟩ ∧
      (createSession cfg st env bp hp caps).2.2 = .error eI) ∧
    (∀ d res rI rP, caps.deviceName = some d → d ≠ "" →
      exec (env 0) = .ok res → (parseDevices res.stdout).contains d = true →
      exec (env 2) = .ok rI → exec (env 3) = .ok rP →
      (createSession cfg st env bp hp caps).1 =
        ⟨some caps, some (parsePackageInfo rP.stdout)⟩) := by
  refine ⟨?_, ?_, ?_⟩
  · unfold createSession
    dsimp only
    repeat' split
    all_goals simp [bringUpTail_caps]
  · intro d res eI hdn hne h0 hpres h2
    have htd : truthy (some d) = true := truthy_some_of_ne d hne
    have hpres2 : d ∈ parseDevices res.stdout := by simpa using hpres
    refine ⟨?_, ?_⟩ <;>
      simp [createSession, listRunningDevices, execAdb, jsOr_none_left, jsOr_self, hdn, htd,
        h0, Except.map, hpres2, bringUpTail, installApp, h2]
  · intro d res rI rP hdn hne h0 hpres h2 h3
    have htd : truthy (some d) = true := truthy_some_of_ne d hne
    have hpres2 : d ∈ parseDevices res.stdout := by simpa using hpres
    simp only [createSession, listRunningDevices, execAdb, jsOr_none_left, jsOr_self, hdn,
      htd, if_true, h0, Except.map, bringUpTail, installApp, packageInfo, hpres,
      Nat.reduceAdd, h2, h3]
    repeat' split
    all_goals simp

/-- Witness for C9: a second bring-up whose install fails leaves the
new capabilities paired with the previous session's AppMetadata. -/
theorem session_state_overwrite_witness :
    (createSession cfgEx ⟨none, some infoOld⟩ envInstallFail bootFail hpOk capsEx).1 =
      ⟨some capsEx, some infoOld⟩ ∧
    (createSession cfgEx ⟨none, some infoOld⟩ envInstallFail bootFail hpOk capsEx).2.2 =
      Except.error (JsError.err "install failed") :=
  (session_state_overwrite cfgEx ⟨none, some infoOld⟩ envInstallFail bootFail hpOk capsEx).2.1
    "emulator-5554" ⟨"List of devices attached\nemulator-5554 device", ""⟩
    (JsError.err "install failed") rfl (by decide) rfl (by decide) rfl

/-- Claim C4: for the concrete bring-up where the device is already in
the running list, platformVersion is `6.0`, and the parsed AppMetadata
yields exactly the two dangerous permissions RECORD_AUDIO and USE_SIP,
the adb invocations issued are exactly `devices`, `uninstall`,
`install`, `shell dumpsys package`, the two grants, `shell monkey`,
`forward` — in that order and nothing else — the bring-up succeeds,
and no emulator is spawned. -/
theorem bringup_trace_concrete :
    adbCmds (createSession cfgEx ⟨none, none⟩ envEx bootFail hpOk capsEx).2.1 =
      ["devices",
       "uninstall fi.foo.bar",
       "install /path/to/app.apk",
       "shell dumpsys package fi.foo.bar",
       "shell pm grant fi.foo.bar android.permission.RECORD_AUDIO",
       "shell pm grant fi.foo.bar android.permission.USE_SIP",
       "shell monkey -p fi.foo.bar -c android.intent.category.LAUNCHER 1",
       "forward tcp:6100 tcp:7100"] ∧
    spawnCount (createSession cfgEx ⟨none, none⟩ envEx bootFail hpOk capsEx).2.1 = 0 ∧
    (createSession cfgEx ⟨none, none⟩ envEx bootFail hpOk capsEx).2.2 = Except.ok () := by
  refine ⟨by decide, by decide, by decide⟩
